import Mathlib

/-!
Verification development for the tvDashApi live distribution engine.

The definitions below are a shallow embedding of the JavaScript sources:
  - src/utils/modeManager.js      (view filtering)
  - src/aggregators/weatherAggregator.js (weather source cache)
  - src/aggregators/todoAggregator.js    (todo source, urgency classification)
  - src/aggregators/index.js      (snapshot aggregation)
  - src/scheduler.js              (mode state, refresh-and-broadcast cycle)
  - src/server.js                 (POST /api/dashboard/mode route)
  - src/wsHandler.js              (connection set, broadcast)

JavaScript objects become Lean structures; nullable values become Option;
Date values become integer millisecond timestamps; module-level mutable
state becomes explicit state passing; the random quote index and the
current time are passed as parameters.  Side effects that matter to the
claims (broadcasts) are recorded in an explicit log.
-/

/-- Weather reading as built by weatherAggregator.js (lines 36-46).
The static fallback object in aggregators/index.js omits feelsLike and
description, so those two fields are optional. -/
structure Weather where
  temp : Int
  condition : String
  icon : String
  feelsLike : Option Int
  description : Option String
  humidity : Int
  windSpeed : Int
  high : Int
  low : Int
deriving Repr, DecidableEq

/-- Quote object from the GUEST_QUOTES pool in modeManager.js. -/
structure Quote where
  text : String
  author : String
deriving Repr, DecidableEq

/-- Formatted next event as built by calendarAggregator.js (formattedNextEvent). -/
structure NextEvent where
  title : String
  time : String
  minutesUntil : Int
  location : String
  startTime : String
deriving Repr, DecidableEq

/-- Dashboard todo item as built by todoAggregator.js getTodos (lines 95-103).
The dueDate ISO string is represented by its millisecond timestamp. -/
structure Todo where
  text : String
  urgent : Bool
  done : Bool
  id : String
  dueDate : Option Int
  priority : Int
  labels : List String
deriving Repr, DecidableEq

/-- Agenda item as built by calendarAggregator.js (agenda map). -/
structure AgendaItem where
  time : String
  title : String
  done : Bool
  location : String
  isAllDay : Bool
deriving Repr, DecidableEq

/-- Local event entry from aggregators/index.js getLocalEvents. -/
structure LocalEvent where
  title : String
  type : String
  time : String
  venue : String
deriving Repr, DecidableEq

/-- LLM message descriptor from aggregators/index.js getLLMMessage. -/
structure LLMMessage where
  active : Bool
  message : String
  urgency : String
deriving Repr, DecidableEq

/-- Full dashboard snapshot (the fullData object of aggregators/index.js).
filterByMode checks each field for null, so every field is optional here. -/
structure DashboardData where
  mode : String
  weather : Option Weather
  nextEvent : Option NextEvent
  todos : Option (List Todo)
  agenda : Option (List AgendaItem)
  localEvents : Option (List LocalEvent)
  llmMessage : Option LLMMessage
deriving Repr, DecidableEq

/-- Weather reduced to temperature and condition, as in createBriefingSummary. -/
structure BriefingWeather where
  temp : Int
  condition : String
deriving Repr, DecidableEq

/-- Next event reduced to title, time and minutesUntil, as in createBriefingSummary. -/
structure BriefingNextEvent where
  title : String
  time : String
  minutesUntil : Int
deriving Repr, DecidableEq

/-- Condensed summary built by createBriefingSummary in modeManager.js. -/
structure BriefingSummary where
  weather : Option BriefingWeather
  nextEvent : Option BriefingNextEvent
  todoCount : Nat
  urgentTodoCount : Nat
  agendaCount : Nat
  upcomingAgenda : List AgendaItem
deriving Repr, DecidableEq

/-- Result shapes of filterByMode.  The personal branch and the default
branch both return the full data object; the other branches build fresh
objects with the listed fields (the mode string of each shape is encoded
by the constructor). -/
inductive FilteredData where
  | full (data : DashboardData)
  | guest (weather : Option Weather) (localEvents : Option (List LocalEvent))
      (guestQuote : Quote)
  | briefing (weather : Option Weather) (summary : BriefingSummary)
  | weatherView (weather : Option Weather) (localEvents : Option (List LocalEvent))
  | art (weather : Option Weather) (localEvents : List LocalEvent)
      (guestQuote : Quote)
deriving Repr, DecidableEq

/-- The fixed pool of quotations in modeManager.js. -/
def GUEST_QUOTES : List Quote :=
  [ ⟨"The best time to plant a tree was 20 years ago. The second best time is now.", "Chinese Proverb"⟩,
    ⟨"Creativity is intelligence having fun.", "Albert Einstein"⟩,
    ⟨"The only way to do great work is to love what you do.", "Steve Jobs"⟩,
    ⟨"Art is not what you see, but what you make others see.", "Edgar Degas"⟩,
    ⟨"Every artist was first an amateur.", "Ralph Waldo Emerson"⟩,
    ⟨"Simplicity is the ultimate sophistication.", "Leonardo da Vinci"⟩,
    ⟨"Design is thinking made visual.", "Saul Bass"⟩,
    ⟨"The purpose of art is washing the dust of daily life off our souls.", "Pablo Picasso"⟩,
    ⟨"Color is my day-long obsession, joy and torment.", "Claude Monet"⟩,
    ⟨"Art enables us to find ourselves and lose ourselves at the same time.", "Thomas Merton"⟩,
    ⟨"To practice any art, no matter how well or badly, is a way to make your soul grow.", "Kurt Vonnegut"⟩,
    ⟨"Everything you can imagine is real.", "Pablo Picasso"⟩ ]

/-- getRandomQuote of modeManager.js: the uniform random draw
Math.floor(Math.random() * GUEST_QUOTES.length) is modelled by passing
the drawn index as a parameter (always in range at runtime). -/
def getRandomQuote (randomIndex : Nat) : Quote :=
  GUEST_QUOTES.getD randomIndex ⟨"", ""⟩

/-- createBriefingSummary of modeManager.js (lines 69-87), field by field:
slice(0, 3) is List.take 3, and the JS null checks become Option matches. -/
def createBriefingSummary (data : DashboardData) : BriefingSummary :=
  { weather := match data.weather with
      | some w => some ⟨w.temp, w.condition⟩
      | none => none
    nextEvent := match data.nextEvent with
      | some e => some ⟨e.title, e.time, e.minutesUntil⟩
      | none => none
    todoCount := match data.todos with
      | some ts => ts.length
      | none => 0
    urgentTodoCount := match data.todos with
      | some ts => (ts.filter (fun t => t.urgent)).length
      | none => 0
    agendaCount := match data.agenda with
      | some ag => ag.length
      | none => 0
    upcomingAgenda := match data.agenda with
      | some ag => (ag.filter (fun item => !item.done)).take 3
      | none => [] }

/-- filterByMode of modeManager.js (lines 95-140).  The JS switch compares
the mode string against each case label in turn, which the if chain mirrors.
The Bool component records whether the default branch fired its
console.warn (the warning signal for an unknown mode).  The random index
feeding getRandomQuote is passed through. -/
def filterByMode (mode : String) (data : DashboardData) (randomIndex : Nat) :
    FilteredData × Bool :=
  if mode = "personal" then
    (.full data, false)
  else if mode = "guest" then
    (.guest data.weather data.localEvents (getRandomQuote randomIndex), false)
  else if mode = "briefing" then
    (.briefing data.weather (createBriefingSummary data), false)
  else if mode = "weather" then
    (.weatherView data.weather data.localEvents, false)
  else if mode = "art" then
    (.art data.weather
      (match data.localEvents with
        | some es => es.filter (fun e => e.type == "art" || e.type == "music")
        | none => [])
      (getRandomQuote randomIndex), false)
  else
    (.full data, true)

/-- getAvailableModes of modeManager.js. -/
def getAvailableModes : List String :=
  ["personal", "guest", "briefing", "weather", "art"]

/-- isValidMode of modeManager.js. -/
def isValidMode (mode : String) : Bool :=
  getAvailableModes.contains mode

/-! ## Weather source cache (src/aggregators/weatherAggregator.js) -/

/-- Module-level cache cells of weatherAggregator.js: cachedWeather and
cacheTimestamp, both initialized to null. -/
structure WeatherCacheState where
  cachedWeather : Option Weather
  cacheTimestamp : Option Nat
deriving Repr, DecidableEq

/-- CACHE_DURATION of weatherAggregator.js: ten minutes in milliseconds. -/
def CACHE_DURATION : Nat := 10 * 60 * 1000

/-- JS truthiness of the cacheTimestamp cell: null is falsy and so is the
number 0. -/
def tsTruthy : Option Nat → Bool
  | none => false
  | some t => t != 0

/-- The cache validity test of getWeather (line 15):
cachedWeather and cacheTimestamp and (Date.now() - cacheTimestamp < CACHE_DURATION).
The current time is passed in for Date.now(). -/
def cacheIsValid (now : Nat) (st : WeatherCacheState) : Bool :=
  st.cachedWeather.isSome && tsTruthy st.cacheTimestamp &&
    decide (now - st.cacheTimestamp.getD 0 < CACHE_DURATION)

/-- Result of one getWeather call: the returned value, the cache state
afterwards, and whether a live fetch was attempted. -/
structure GetWeatherResult where
  value : Option Weather
  state : WeatherCacheState
  fetched : Bool
deriving Repr, DecidableEq

/-- getWeather of weatherAggregator.js (lines 13-68).  Parameters stand for
the ambient effects: now for Date.now(), configured for the presence of
the API key and coordinates, fetch for the outcome of the network call
(getCurrentWeather composed with parseWeatherResponse, already shaped as
the weatherData object of lines 36-46).  With a valid cache the cached
value is returned without fetching; unconfigured, cachedWeather-or-null is
returned without fetching; on fetch success the cache cells are replaced
and the fresh value returned; on fetch failure the cached value is
returned if present, else null, with the cache cells untouched. -/
def getWeather (now : Nat) (configured : Bool) (fetch : Except String Weather)
    (st : WeatherCacheState) : GetWeatherResult :=
  if cacheIsValid now st then
    ⟨st.cachedWeather, st, false⟩
  else if !configured then
    ⟨st.cachedWeather, st, false⟩
  else
    match fetch with
    | .ok w => ⟨some w, ⟨some w, some now⟩, true⟩
    | .error _ => ⟨st.cachedWeather, st, true⟩

/-! ## Todo source (src/aggregators/todoAggregator.js) -/

/-- Due object of a parsed Todoist task (parseTodoistTask in
todoistClient.js).  The date and datetime strings are represented by the
millisecond timestamps they parse to. -/
structure Due where
  date : Option Int
  datetime : Option Int
  string : String
  timezone : Option String
deriving Repr, DecidableEq

/-- Output of the pure client mapper parseTodoistTask (todoistClient.js),
which is what getTodos consumes after tasks.map(parseTodoistTask). -/
structure ParsedTask where
  id : String
  content : String
  description : String
  projectId : String
  priority : Int
  due : Option Due
  labels : List String
  url : String
  createdAt : String
  isCompleted : Bool
deriving Repr, DecidableEq

/-- URGENT_THRESHOLD_HOURS of todoAggregator.js. -/
def URGENT_THRESHOLD_HOURS : ℚ := 2

/-- parseDueDate of todoAggregator.js (lines 10-24): prefer datetime,
fall back to date, else null. -/
def parseDueDate : Option Due → Option Int
  | none => none
  | some d =>
    match d.datetime with
    | some t => some t
    | none =>
      match d.date with
      | some t => some t
      | none => none

/-- Local calendar day number of a timestamp: the day-triple comparison of
isDueTodayOrOverdue (via getFullYear, getMonth, getDate in the process
timezone) is modelled by floor division of the offset-shifted time into
days, with tz the fixed local UTC offset in milliseconds. -/
def localDay (tz t : Int) : Int :=
  (t + tz).fdiv 86400000

/-- isDueTodayOrOverdue of todoAggregator.js (lines 31-40): true iff the
due day is the current local day or earlier; false for a null due date. -/
def isDueTodayOrOverdue (tz now : Int) : Option Int → Bool
  | none => false
  | some d => decide (localDay tz d ≤ localDay tz now)

/-- isTaskUrgent of todoAggregator.js (lines 47-55): null due date is never
urgent; otherwise the hour distance to the due date, a real-number
division, is compared against the two-hour threshold (overdue tasks have
a negative distance and pass the test). -/
def isTaskUrgent (now : Int) : Option Int → Bool
  | none => false
  | some d =>
    decide ((((d : ℚ) - (now : ℚ)) / (1000 * 60 * 60)) ≤ URGENT_THRESHOLD_HOURS)

/-- getMockTodos of todoAggregator.js (lines 136-170): three fabricated
items whose due dates are one hour and four hours from now. -/
def getMockTodos (now : Int) : List Todo :=
  [ { text := "Review PRs", urgent := true, done := false, id := "mock-1",
      dueDate := some (now + 60 * 60 * 1000), priority := 4, labels := ["work"] },
    { text := "Update documentation", urgent := false, done := false, id := "mock-2",
      dueDate := some (now + 4 * 60 * 60 * 1000), priority := 2, labels := ["work"] },
    { text := "Team sync", urgent := false, done := false, id := "mock-3",
      dueDate := some (now + 4 * 60 * 60 * 1000), priority := 3, labels := ["meeting"] } ]

/-- The sort comparator of getTodos (lines 106-119): items with a due date
first, then by due date ascending, ties by priority descending. -/
def todoCompare (a b : Todo) : Int :=
  match a.dueDate, b.dueDate with
  | some _, none => -1
  | none, some _ => 1
  | some ta, some tb =>
    if ta - tb ≠ 0 then ta - tb else b.priority - a.priority
  | none, none => b.priority - a.priority

/-- getTodos of todoAggregator.js (lines 61-130).  Parameters stand for the
ambient effects: configured for the presence of the API token, fetch for
the outcome of getTasks already composed with the pure client mapper
parseTodoistTask (map preserves length, so the emptiness check commutes
with the mapping), now and tz for the clock and local timezone offset.
Unconfigured or failing fetches return the mock list; otherwise completed
tasks are dropped, due dates parsed, tasks filtered to those due today or
overdue, formatted for the dashboard, and sorted (JS sort is stable, hence
a stable merge sort under the comparator). -/
def getTodos (configured : Bool) (fetch : Except String (List ParsedTask))
    (now tz : Int) : List Todo :=
  if !configured then
    getMockTodos now
  else
    match fetch with
    | .error _ => getMockTodos now
    | .ok tasks =>
      if tasks.isEmpty then []
      else
        let relevantTasks :=
          ((tasks.filter (fun t => !t.isCompleted)).map
            (fun t => (t, parseDueDate t.due))).filter
            (fun p => isDueTodayOrOverdue tz now p.2)
        let todos := relevantTasks.map (fun p =>
          { text := p.1.content, urgent := isTaskUrgent now p.2, done := false,
            id := p.1.id, dueDate := p.2, priority := p.1.priority,
            labels := p.1.labels : Todo })
        todos.mergeSort (fun a b => todoCompare a b ≤ 0)

/-! ## Snapshot aggregation (src/aggregators/index.js) -/

/-- The static fallback weather object of getWeatherData in
aggregators/index.js (lines 224-232); it defines no feelsLike or
description field. -/
def WEATHER_FALLBACK : Weather :=
  { temp := 72, condition := "Partly Cloudy", icon := "02d",
    feelsLike := none, description := none,
    humidity := 55, windSpeed := 8, high := 78, low := 65 }

/-- getWeatherData of aggregators/index.js: the value from the weather
cache if available, otherwise the static fallback, never null. -/
def getWeatherData (weatherResult : Option Weather) : Weather :=
  weatherResult.getD WEATHER_FALLBACK

/-- The fixed list returned by getLocalEvents in aggregators/index.js. -/
def LOCAL_EVENTS : List LocalEvent :=
  [ ⟨"Jazz Night", "music", "7:00 PM", "Blue Note"⟩,
    ⟨"Art Gallery Opening", "art", "6:00 PM", "Modern Art Museum"⟩ ]

/-- The fixed object returned by getLLMMessage in aggregators/index.js. -/
def LLM_MESSAGE : LLMMessage :=
  { active := false, message := "", urgency := "none" }

/-- The per-cycle outcomes of the source getters consumed by
getDashboardData: the weather cache result (before the static fallback)
and the calendar and todo getter outputs, which already contain their own
documented fallbacks (null next event, empty agenda, todo list). -/
structure SourceData where
  weather : Option Weather
  nextEvent : Option NextEvent
  todos : List Todo
  agenda : List AgendaItem
deriving Repr, DecidableEq

/-- The fullData object assembled by getDashboardData in
aggregators/index.js (lines 191-199). -/
def buildFullData (sources : SourceData) (mode : String) : DashboardData :=
  { mode := mode,
    weather := some (getWeatherData sources.weather),
    nextEvent := sources.nextEvent,
    todos := some sources.todos,
    agenda := some sources.agenda,
    localEvents := some LOCAL_EVENTS,
    llmMessage := some LLM_MESSAGE }

/-- getDashboardData of aggregators/index.js: assemble the full snapshot
from the source getter outcomes, then filter it by the requested mode.
Every source getter contains its own fallback, so aggregation over the
already-resolved source outcomes is total; the rethrowing catch block of
the JS function is unreachable at this level. -/
def getDashboardData (sources : SourceData) (mode : String) (randomIndex : Nat) :
    FilteredData × Bool :=
  filterByMode mode (buildFullData sources mode) randomIndex

/-! ## Scheduler and broadcast (src/scheduler.js, src/wsHandler.js) -/

/-- Wire events whose emission the claims observe: sendDashboardUpdate
messages (event dashboard:update) and the error notification sent by the
catch branch of refreshDashboardData (event error). -/
inductive BroadcastEvent where
  | dashboardUpdate (data : FilteredData)
  | errorEvent (message : String) (error : String)
deriving Repr, DecidableEq

/-- Recognizer for dashboard update events in the broadcast log. -/
def isDashboardUpdate : BroadcastEvent → Bool
  | .dashboardUpdate _ => true
  | _ => false

/-- Process-wide mutable state touched by the scheduler and the routes:
the currentMode cell of scheduler.js, plus the log of broadcasts issued
through wsHandler (each entry is one broadcast call reaching every
currently open connection). -/
structure SystemState where
  currentMode : String
  broadcasts : List BroadcastEvent
deriving Repr, DecidableEq

/-- sendDashboardUpdate of wsHandler.js: one broadcast call carrying a
dashboard:update event. -/
def sendDashboardUpdate (d : FilteredData) (st : SystemState) : SystemState :=
  { st with broadcasts := st.broadcasts ++ [.dashboardUpdate d] }

/-- refreshDashboardData of scheduler.js (lines 26-49): aggregate for the
current mode and broadcast the result; if aggregation throws, broadcast an
error event instead.  The aggregation outcome is supplied as a function of
the mode. -/
def refreshDashboardData (aggregate : String → Except String FilteredData)
    (st : SystemState) : SystemState :=
  match aggregate st.currentMode with
  | .ok d => sendDashboardUpdate d st
  | .error e =>
    { st with broadcasts :=
        st.broadcasts ++ [.errorEvent "Failed to refresh dashboard data" e] }

/-- setMode of scheduler.js (lines 86-94): overwrite currentMode, then
immediately run one refresh-and-broadcast cycle with the new mode. -/
def setMode (aggregate : String → Except String FilteredData) (mode : String)
    (st : SystemState) : SystemState :=
  refreshDashboardData aggregate { st with currentMode := mode }

/-- getMode of scheduler.js. -/
def getMode (st : SystemState) : String :=
  st.currentMode

/-! ## POST /api/dashboard/mode route (src/server.js lines 64-101) -/

/-- Responses of the mode route: the 400 missing-mode reply, the 400
invalid-mode reply (the InvalidView error of the spec), the 200 success
reply, and the 500 reply produced when the awaited aggregation throws. -/
inductive ModeResponse where
  | missingMode
  | invalidMode (mode : String)
  | success (mode : String)
  | serverError (message : String)
deriving Repr, DecidableEq

/-- The POST /api/dashboard/mode handler of server.js.  A missing mode
field (absent, or the empty string, which is falsy in JS) yields the
missing-mode reply; an unrecognized mode yields the invalid-mode reply
with no state change; otherwise scheduler.setMode runs (which itself
refreshes and broadcasts), the route fetches fresh data for the new mode
and broadcasts it a second time, and replies with success.  If the
awaited fetch throws, the error handler replies 500, the setMode
broadcast having already been issued. -/
def postDashboardMode (aggregate : String → Except String FilteredData)
    (reqMode : Option String) (st : SystemState) : ModeResponse × SystemState :=
  match reqMode with
  | none => (.missingMode, st)
  | some mode =>
    if mode = "" then (.missingMode, st)
    else if !isValidMode mode then (.invalidMode mode, st)
    else
      let st1 := setMode aggregate mode st
      match aggregate mode with
      | .ok d => (.success mode, sendDashboardUpdate d st1)
      | .error e => (.serverError e, st1)

/-! ## Connection set (src/wsHandler.js) -/

/-- The clients Set of WebSocketHandler.  Connections are identified by
the unique client identifier generated at accept time. -/
structure WSHandlerState where
  clients : Finset ℕ
deriving DecidableEq

/-- The connection handler of WebSocketHandler.initialize (lines 15-22):
a freshly generated client identifier is added to the clients set. -/
def handleConnection (st : WSHandlerState) (cid : ℕ) : WSHandlerState :=
  ⟨insert cid st.clients⟩

/-- The close handler registered in initialize (lines 44-48) and equally
the error handler (lines 51-54): the connection is deleted from the
clients set (a no-op when already absent, as for JS Set delete). -/
def handleClose (st : WSHandlerState) (cid : ℕ) : WSHandlerState :=
  ⟨st.clients.erase cid⟩

/-- getActiveConnectionCount of wsHandler.js: the size of the clients set. -/
def getActiveConnectionCount (st : WSHandlerState) : ℕ :=
  st.clients.card

/-! ## Test fixtures -/

/-- Concrete source outcomes for witness instantiations. -/
def sourcesTest : SourceData :=
  { weather := none, nextEvent := none, todos := [], agenda := [] }

/-- Concrete aggregation function (always succeeds) for witness
instantiations. -/
def aggregateTest : String → Except String FilteredData :=
  fun m => .ok (getDashboardData sourcesTest m 0).1

/-- Concrete scheduler state for witness instantiations. -/
def systemTest : SystemState :=
  { currentMode := "personal", broadcasts := [] }

/-! ## Helper lemmas -/

/-- A mode outside the enumerated set differs from each of its five
members. -/
theorem mode_ne_of_invalid (m : String) (hv : isValidMode m = false) :
    m ≠ "personal" ∧ m ≠ "guest" ∧ m ≠ "briefing" ∧ m ≠ "weather" ∧ m ≠ "art" := by
  refine ⟨?_, ?_, ?_, ?_, ?_⟩ <;> (intro h; subst h; revert hv; decide)

/-- A mode inside the enumerated set is not the empty string. -/
theorem mode_ne_empty_of_valid (m : String) (hv : isValidMode m = true) :
    m ≠ "" := by
  intro h; subst h; revert hv; decide

/-! ## Claims -/

/-- C1: for every view identifier outside the enumerated set
{personal, guest, briefing, weather, art}, the set-default-view operation
(the POST /api/dashboard/mode handler) replies with the explicit
invalid-mode error and leaves the whole scheduler state unchanged: the
current view keeps its old value and no refresh cycle or broadcast is
triggered. -/
theorem setDefaultView_invalid_rejected
    (aggregate : String → Except String FilteredData) (st : SystemState)
    (m : String) (hv : isValidMode m = false) (hne : m ≠ "") :
    postDashboardMode aggregate (some m) st = (ModeResponse.invalidMode m, st) := by
  simp [postDashboardMode, hne, hv]

/-- Witness for C1 at the concrete identifier bogus. -/
theorem setDefaultView_invalid_rejected_witness :
    postDashboardMode aggregateTest (some "bogus") systemTest =
      (ModeResponse.invalidMode "bogus", systemTest) :=
  setDefaultView_invalid_rejected aggregateTest systemTest "bogus"
    (by decide) (by decide)

/-- C2: for every view identifier outside the enumerated set, the
read-only snapshot operation (getDashboardData) does not produce an
error: it returns the full snapshot unchanged, exactly the personal
shape, and only raises the warning flag of the default filter branch. -/
theorem getSnapshot_unknown_falls_back_to_personal
    (sources : SourceData) (d : DashboardData) (randomIndex : Nat)
    (m : String) (hv : isValidMode m = false) :
    getDashboardData sources m randomIndex =
      (FilteredData.full (buildFullData sources m), true) ∧
    filterByMode m d randomIndex = (FilteredData.full d, true) ∧
    (filterByMode m d randomIndex).1 = (filterByMode "personal" d randomIndex).1 := by
  obtain ⟨h1, h2, h3, h4, h5⟩ := mode_ne_of_invalid m hv
  refine ⟨?_, ?_, ?_⟩ <;>
    simp [getDashboardData, filterByMode, h1, h2, h3, h4, h5]

/-- Witness for C2 at the concrete identifier bogus. -/
theorem getSnapshot_unknown_falls_back_to_personal_witness :
    getDashboardData sourcesTest "bogus" 0 =
      (FilteredData.full (buildFullData sourcesTest "bogus"), true) ∧
    filterByMode "bogus" (buildFullData sourcesTest "bogus") 0 =
      (FilteredData.full (buildFullData sourcesTest "bogus"), true) ∧
    (filterByMode "bogus" (buildFullData sourcesTest "bogus") 0).1 =
      (filterByMode "personal" (buildFullData sourcesTest "bogus") 0).1 :=
  getSnapshot_unknown_falls_back_to_personal sourcesTest
    (buildFullData sourcesTest "bogus") 0 "bogus" (by decide)

/-- C3 counterexample: one successful set-default-view call at the
concrete valid identifier guest broadcasts two dashboard updates, not
exactly one as the claim states. -/
theorem setDefaultView_single_broadcast_cex :
    (postDashboardMode aggregateTest (some "guest") systemTest).1 =
      ModeResponse.success "guest" ∧
    ((postDashboardMode aggregateTest (some "guest") systemTest).2.broadcasts.countP
      isDashboardUpdate) ≠ 1 ∧
    ((postDashboardMode aggregateTest (some "guest") systemTest).2.broadcasts.countP
      isDashboardUpdate) = 2 := by
  refine ⟨rfl, by decide, rfl⟩

/-- C3 as amended: for every valid view identifier, one successful
set-default-view call with an aggregation that succeeds broadcasts
exactly two dashboard updates to the open connections: one from the
refresh cycle that setMode triggers in the scheduler, and one issued by
the route handler itself with the freshly fetched data. -/
theorem setDefaultView_two_broadcasts
    (sources : SourceData) (randomIndex : Nat) (st : SystemState)
    (m : String) (hv : isValidMode m = true) :
    (postDashboardMode (fun mm => .ok (getDashboardData sources mm randomIndex).1)
        (some m) st).1 = ModeResponse.success m ∧
    ((postDashboardMode (fun mm => .ok (getDashboardData sources mm randomIndex).1)
        (some m) st).2.broadcasts.countP isDashboardUpdate) =
      st.broadcasts.countP isDashboardUpdate + 2 := by
  have hne : m ≠ "" := mode_ne_empty_of_valid m hv
  refine ⟨?_, ?_⟩ <;>
    simp [postDashboardMode, setMode, refreshDashboardData, sendDashboardUpdate,
      hne, hv, List.countP_append, isDashboardUpdate]

/-- Witness for the amended C3 at the concrete identifier guest. -/
theorem setDefaultView_two_broadcasts_witness :
    (postDashboardMode (fun mm => .ok (getDashboardData sourcesTest mm 0).1)
        (some "guest") systemTest).1 = ModeResponse.success "guest" ∧
    ((postDashboardMode (fun mm => .ok (getDashboardData sourcesTest mm 0).1)
        (some "guest") systemTest).2.broadcasts.countP isDashboardUpdate) =
      systemTest.broadcasts.countP isDashboardUpdate + 2 :=
  setDefaultView_two_broadcasts sourcesTest 0 systemTest "guest" (by decide)

/-- C4: evaluation of the code at the failing input.  With the API token
configured and a failing live fetch, and no cache involved at all (the
todo source keeps no cache), getTodos does not return an explicit
unavailable result: it returns the fabricated three-item mock list. -/
theorem getTodos_failure_returns_fabricated_mock :
    getTodos true (Except.error "Todoist API timeout or network error") 0 0 =
      getMockTodos 0 ∧
    getMockTodos 0 ≠ [] ∧
    (getMockTodos 0).length = 3 := by
  refine ⟨rfl, by decide, rfl⟩

/-- C5: for the weather source cache with its fixed ten-minute TTL and a
fetch that always succeeds: starting from the empty cache, the first call
at time t0 fetches and stores the value with timestamp t0; a second call
at a time t1 inside the TTL window issues no live fetch, returns the
first value, and leaves the cache untouched (so the two calls issue one
fetch in total); a call at a time t2 past the TTL fetches again and
stores the new value with the fresh timestamp t2. -/
theorem weather_cache_ttl (w1 w2 : Weather) (t0 t1 t2 : Nat)
    (h0 : 0 < t0) (hfresh : t1 - t0 < CACHE_DURATION)
    (hexp : CACHE_DURATION ≤ t2 - t0) :
    (getWeather t0 true (.ok w1) ⟨none, none⟩).fetched = true ∧
    (getWeather t0 true (.ok w1) ⟨none, none⟩).state = ⟨some w1, some t0⟩ ∧
    (getWeather t1 true (.ok w2) ⟨some w1, some t0⟩).fetched = false ∧
    (getWeather t1 true (.ok w2) ⟨some w1, some t0⟩).value = some w1 ∧
    (getWeather t1 true (.ok w2) ⟨some w1, some t0⟩).state = ⟨some w1, some t0⟩ ∧
    (getWeather t2 true (.ok w2) ⟨some w1, some t0⟩).fetched = true ∧
    (getWeather t2 true (.ok w2) ⟨some w1, some t0⟩).value = some w2 ∧
    (getWeather t2 true (.ok w2) ⟨some w1, some t0⟩).state = ⟨some w2, some t2⟩ := by
  have ht0 : t0 ≠ 0 := Nat.pos_iff_ne_zero.mp h0
  have hnot : ¬ (t2 - t0 < CACHE_DURATION) := Nat.not_lt.mpr hexp
  refine ⟨?_, ?_, ?_, ?_, ?_, ?_, ?_, ?_⟩ <;>
    simp [getWeather, cacheIsValid, tsTruthy, ht0, hfresh, hnot]

/-- Witness for C5 at concrete times 1, 2 and 600001 with concrete
weather values. -/
theorem weather_cache_ttl_witness :
    (getWeather 1 true (.ok WEATHER_FALLBACK) ⟨none, none⟩).fetched = true ∧
    (getWeather 1 true (.ok WEATHER_FALLBACK) ⟨none, none⟩).state =
      ⟨some WEATHER_FALLBACK, some 1⟩ ∧
    (getWeather 2 true (.ok WEATHER_FALLBACK) ⟨some WEATHER_FALLBACK, some 1⟩).fetched = false ∧
    (getWeather 2 true (.ok WEATHER_FALLBACK) ⟨some WEATHER_FALLBACK, some 1⟩).value =
      some WEATHER_FALLBACK ∧
    (getWeather 2 true (.ok WEATHER_FALLBACK) ⟨some WEATHER_FALLBACK, some 1⟩).state =
      ⟨some WEATHER_FALLBACK, some 1⟩ ∧
    (getWeather 600001 true (.ok WEATHER_FALLBACK) ⟨some WEATHER_FALLBACK, some 1⟩).fetched = true ∧
    (getWeather 600001 true (.ok WEATHER_FALLBACK) ⟨some WEATHER_FALLBACK, some 1⟩).value =
      some WEATHER_FALLBACK ∧
    (getWeather 600001 true (.ok WEATHER_FALLBACK) ⟨some WEATHER_FALLBACK, some 1⟩).state =
      ⟨some WEATHER_FALLBACK, some 600001⟩ :=
  weather_cache_ttl WEATHER_FALLBACK WEATHER_FALLBACK 1 2 600001
    (by decide) (by decide) (by decide)

/-- Weather value used by the C6 counterexample. -/
def weatherA : Weather :=
  { temp := 70, condition := "Clear", icon := "01d", feelsLike := some 68,
    description := some "clear sky", humidity := 55, windSpeed := 8,
    high := 78, low := 65 }

/-- Same reading as weatherA apart from the humidity field. -/
def weatherB : Weather :=
  { weatherA with humidity := 90 }

/-- Snapshot carrying weatherA, used by the C6 counterexample. -/
def snapshotA : DashboardData :=
  { mode := "briefing", weather := some weatherA, nextEvent := none,
    todos := some [], agenda := some [], localEvents := some [],
    llmMessage := some LLM_MESSAGE }

/-- Same snapshot as snapshotA apart from the weather humidity. -/
def snapshotB : DashboardData :=
  { snapshotA with weather := some weatherB }

/-- C6 counterexample: two snapshots that agree on weather temperature and
condition but differ in humidity produce different briefing outputs, so a
weather field other than temperature and condition appears in the
briefing output; indeed the briefing branch carries the complete weather
object at top level next to the reduced copy inside the summary. -/
theorem briefing_weather_not_reduced_cex :
    weatherA.temp = weatherB.temp ∧ weatherA.condition = weatherB.condition ∧
    (filterByMode "briefing" snapshotA 0).1 ≠ (filterByMode "briefing" snapshotB 0).1 ∧
    (filterByMode "briefing" snapshotA 0).1 =
      FilteredData.briefing (some weatherA) (createBriefingSummary snapshotA) := by
  refine ⟨rfl, rfl, by decide, rfl⟩

/-- C6 as amended: for every full snapshot, the briefing output consists
of the full weather reading at top level together with the derived
summary, and the weather inside the summary is reduced to temperature and
condition only. -/
theorem briefing_summary_weather_reduced (d : DashboardData) (randomIndex : Nat) :
    (filterByMode "briefing" d randomIndex).1 =
      FilteredData.briefing d.weather (createBriefingSummary d) ∧
    (createBriefingSummary d).weather =
      d.weather.map (fun w => ⟨w.temp, w.condition⟩) := by
  obtain ⟨mode, w, ne, td, ag, le, llm⟩ := d
  exact ⟨rfl, by cases w <;> rfl⟩

/-- C7: for every full snapshot, the briefing summary satisfies the four
invariants: the urgent count never exceeds the total todo count, the
upcoming agenda holds at most three items, each of them is not done, and
they appear in the original relative order of the agenda (sublist). -/
theorem briefing_summary_invariants (d : DashboardData) :
    (createBriefingSummary d).urgentTodoCount ≤ (createBriefingSummary d).todoCount ∧
    (createBriefingSummary d).upcomingAgenda.length ≤ 3 ∧
    (∀ item ∈ (createBriefingSummary d).upcomingAgenda, item.done = false) ∧
    (createBriefingSummary d).upcomingAgenda.Sublist (d.agenda.getD []) := by
  obtain ⟨mode, w, ne, td, ag, le, llm⟩ := d
  refine ⟨?_, ?_, ?_, ?_⟩
  · cases td with
    | none => simp [createBriefingSummary]
    | some ts =>
      simp only [createBriefingSummary]
      exact List.length_filter_le _ ts
  · cases ag with
    | none => simp [createBriefingSummary]
    | some items => simp [createBriefingSummary]
  · cases ag with
    | none => simp [createBriefingSummary]
    | some items =>
      intro item hmem
      simp only [createBriefingSummary] at hmem
      have hf := List.mem_of_mem_take hmem
      rw [List.mem_filter] at hf
      simpa using hf.2
  · cases ag with
    | none => simp [createBriefingSummary]
    | some items =>
      simp only [createBriefingSummary, Option.getD_some]
      exact (List.take_sublist 3 _).trans (List.filter_sublist items)

/-- Agenda item used by the C7 witness. -/
def agendaItemTest : AgendaItem :=
  { time := "9:00 AM", title := "Standup", done := false, location := "",
    isAllDay := false }

/-- Todo item used by the C7 witness. -/
def todoTest : Todo :=
  { text := "t", urgent := true, done := false, id := "1",
    dueDate := none, priority := 1, labels := [] }

/-- Snapshot with one todo and one not-done agenda item, used by the C7
witness. -/
def snapshotC : DashboardData :=
  { mode := "personal", weather := none, nextEvent := none,
    todos := some [todoTest],
    agenda := some [agendaItemTest], localEvents := none,
    llmMessage := none }

/-- Witness for C7 at a concrete snapshot and agenda item. -/
theorem briefing_summary_invariants_witness :
    (createBriefingSummary snapshotC).urgentTodoCount ≤
      (createBriefingSummary snapshotC).todoCount ∧
    agendaItemTest.done = false :=
  ⟨(briefing_summary_invariants snapshotC).1,
   (briefing_summary_invariants snapshotC).2.2.1 agendaItemTest
     (by simp [createBriefingSummary, snapshotC, agendaItemTest])⟩

/-- C8: for every full snapshot, the art view filter keeps exactly the
local events whose category is art or music: the output is the filter of
the input list (so every kept item has one of the two categories, no item
of another category appears, and the relative input order is preserved as
a sublist). -/
theorem art_filter_events (d : DashboardData) (randomIndex : Nat) :
    (filterByMode "art" d randomIndex).1 =
      FilteredData.art d.weather
        ((d.localEvents.getD []).filter (fun e => e.type == "art" || e.type == "music"))
        (getRandomQuote randomIndex) ∧
    (∀ e ∈ (d.localEvents.getD []).filter (fun e => e.type == "art" || e.type == "music"),
      e.type = "art" ∨ e.type = "music") ∧
    ((d.localEvents.getD []).filter
      (fun e => e.type == "art" || e.type == "music")).Sublist
      (d.localEvents.getD []) := by
  refine ⟨?_, ?_, List.filter_sublist _⟩
  · obtain ⟨mode, w, ne, td, ag, le, llm⟩ := d
    cases le <;> rfl
  · intro e he
    rw [List.mem_filter] at he
    simpa using he.2

/-- Snapshot carrying the static local events, used by the C8 witness. -/
def snapshotD : DashboardData :=
  { mode := "art", weather := none, nextEvent := none, todos := none,
    agenda := none, localEvents := some LOCAL_EVENTS, llmMessage := none }

/-- The music entry of the static local events, used by the C8 witness. -/
def jazzNight : LocalEvent :=
  { title := "Jazz Night", type := "music", time := "7:00 PM", venue := "Blue Note" }

/-- Witness for C8 at a concrete snapshot and event. -/
theorem art_filter_events_witness :
    jazzNight.type = "art" ∨ jazzNight.type = "music" :=
  (art_filter_events snapshotD 0).2.1 jazzNight
    (by simp [snapshotD, LOCAL_EVENTS, jazzNight])

/-- C9: adding a freshly identified connection raises the connection count
by exactly one; closing that connection lowers it back by exactly one;
and a second close of the same connection is a no-op, so the count changes
only once. -/
theorem connection_count_laws (st : WSHandlerState) (cid : ℕ)
    (h : cid ∉ st.clients) :
    getActiveConnectionCount (handleConnection st cid) =
      getActiveConnectionCount st + 1 ∧
    getActiveConnectionCount (handleClose (handleConnection st cid) cid) =
      getActiveConnectionCount st ∧
    handleClose (handleClose (handleConnection st cid) cid) cid =
      handleClose (handleConnection st cid) cid := by
  refine ⟨?_, ?_, ?_⟩
  · simp [getActiveConnectionCount, handleConnection,
      Finset.card_insert_of_not_mem h]
  · simp [getActiveConnectionCount, handleClose, handleConnection,
      Finset.erase_insert h]
  · simp [handleClose, handleConnection, Finset.erase_idem]

/-- Connection set with two members, used by the C9 witness. -/
def wsTest : WSHandlerState := ⟨{0, 1}⟩

/-- Witness for C9 at a concrete connection set and fresh identifier. -/
theorem connection_count_laws_witness :
    getActiveConnectionCount (handleConnection wsTest 5) =
      getActiveConnectionCount wsTest + 1 ∧
    getActiveConnectionCount (handleClose (handleConnection wsTest 5) 5) =
      getActiveConnectionCount wsTest ∧
    handleClose (handleClose (handleConnection wsTest 5) 5) 5 =
      handleClose (handleConnection wsTest 5) 5 :=
  connection_count_laws wsTest 5 (by decide)

/-- Unfolding equation for the success path of getTodos. -/
theorem getTodos_ok (tasks : List ParsedTask) (now tz : Int) :
    getTodos true (Except.ok tasks) now tz =
      if tasks.isEmpty then []
      else
        ((((tasks.filter (fun t => !t.isCompleted)).map
            (fun t => (t, parseDueDate t.due))).filter
            (fun p => isDueTodayOrOverdue tz now p.2)).map (fun p =>
          { text := p.1.content, urgent := isTaskUrgent now p.2, done := false,
            id := p.1.id, dueDate := p.2, priority := p.1.priority,
            labels := p.1.labels : Todo })).mergeSort
          (fun a b => todoCompare a b ≤ 0) := rfl

/-- C10: a task with a due date is classified urgent exactly when the due
date lies at most two hours after the classification time; every overdue
task (due date strictly in the past) is urgent; a task without a due date
is never urgent; and every todo produced by the getTodos success path
carries the urgent flag computed by that classification from its own due
date. -/
theorem urgent_classification (now : Int) :
    (∀ d : Int, isTaskUrgent now (some d) = true ↔ d ≤ now + 2 * (1000 * 60 * 60)) ∧
    (∀ d : Int, d < now → isTaskUrgent now (some d) = true) ∧
    isTaskUrgent now none = false ∧
    (∀ (tasks : List ParsedTask) (tz : Int) (t : Todo),
      t ∈ getTodos true (Except.ok tasks) now tz →
        t.urgent = isTaskUrgent now t.dueDate) := by
  have hiff : ∀ d : Int,
      isTaskUrgent now (some d) = true ↔ d ≤ now + 2 * (1000 * 60 * 60) := by
    intro d
    simp only [isTaskUrgent, URGENT_THRESHOLD_HOURS, decide_eq_true_eq]
    rw [div_le_iff₀ (by norm_num : (0 : ℚ) < 1000 * 60 * 60)]
    constructor
    · intro hq
      have hc : (d : ℚ) ≤ (now : ℚ) + 2 * (1000 * 60 * 60) := by linarith
      exact_mod_cast hc
    · intro hz
      have hc : (d : ℚ) ≤ (now : ℚ) + 2 * (1000 * 60 * 60) := by exact_mod_cast hz
      linarith
  refine ⟨hiff, ?_, rfl, ?_⟩
  · intro d hd
    exact (hiff d).mpr (by omega)
  · intro tasks tz t ht
    rw [getTodos_ok] at ht
    by_cases hemp : tasks.isEmpty
    · rw [if_pos hemp] at ht
      simp at ht
    · rw [if_neg hemp] at ht
      rw [List.mem_mergeSort, List.mem_map] at ht
      obtain ⟨p, hp, rfl⟩ := ht
      rfl

/-- Witness for C10: an overdue task at a concrete time is urgent. -/
theorem urgent_classification_witness :
    isTaskUrgent 1000 (some 0) = true :=
  (urgent_classification 1000).2.1 0 (by decide)
